import Mathlib

/-!
Shallow embedding of the Monte-Carlo "Invest vs Buy" simulation core
(`src/core/mortgage.py`, `src/core/housing.py`, `src/core/mc_equity.py`,
`src/core/compose.py`, `src/core/stats.py`).

Modelling conventions:
* NumPy float arithmetic is idealized as real arithmetic (`ℝ`), so the
  "≈ within tolerance" clauses of the specification become exact equalities.
* A grid of shape `(n_paths, n_months+1)` is a function `ℕ → ℕ → ℝ`
  (path index, then month index); only indices `p < n_paths`,
  `t ≤ n_months` are meaningful.
* `np.random.RandomState(seed)` is modelled as a stream `ℕ → ℝ` of
  standard-normal draws together with a cursor; a call
  `rng.standard_normal((n_paths, n_months))` reads the next
  `n_paths * n_months` entries in C (row-major) order and advances the
  cursor, exactly mirroring the sequential consumption of the seeded
  generator.
* IEEE division corner cases that the code relies on are modelled
  explicitly: `x / 0` with `x > 0` compares as `+∞` (greater than any
  finite threshold), `0 / 0` is NaN (all comparisons false), and
  `x / 0` with `x < 0` compares as `-∞` (see `npDivGt`, `npDivF`).
* The Python statement `if balance[t] / home_paths[:, t] > L:` in the
  FHA branch of `compose.py` evaluates the truth value of a boolean
  *array*; NumPy defines it only for a single-element array and raises
  `ValueError` otherwise.  `compose_invest_vs_buy` therefore returns
  `Except Unit _`, with `.error ()` in exactly the raising configuration.
-/

namespace InvestVsBuy

/-- `params["loan_type"]`: `"FHA"` or `"Conventional"`. -/
inductive LoanType where
  | FHA
  | Conventional
deriving DecidableEq

/-- `params["tax_basis"]`: `"current"` or anything else (original price). -/
inductive TaxBasis where
  | current
  | original
deriving DecidableEq

/-- The parameter dictionary consumed by `compose_invest_vs_buy`.
Optional dictionary entries read through `params.get(key, default)` are
plain fields here (the caller supplies the default), except the two
genuinely optional values `mip_remove_ltv` (default `None`) and
`invest_initial` (default: fall back to closing costs), which are
`Option ℝ`. -/
structure Params where
  n_paths : ℕ
  years : ℕ
  home_price : ℝ
  down_payment_pct : ℝ
  loan_type : LoanType
  mip_upfront : ℝ
  mip_finance_upfront : Bool
  mortgage_rate : ℝ
  home_mu : ℝ
  home_sigma : ℝ
  tax_basis : TaxBasis
  property_tax_rate : ℝ
  insurance_rate : ℝ
  maintenance_rate : ℝ
  hoa_monthly : ℝ
  monthly_savings : ℝ
  income_growth : ℝ
  mip_remove_ltv : Option ℝ
  mip_rate : ℝ
  pmi_remove_ltv : ℝ
  pmi_rate : ℝ
  equity_mu : ℝ
  equity_sigma : ℝ
  equity_fee : ℝ
  rent : ℝ
  rent_growth : ℝ
  selling_cost_rate : ℝ
  enforce_parity : Bool
  invest_initial : Option ℝ

/-- A seeded pseudorandom source: the (infinite) stream of standard-normal
draws the `RandomState` would produce, plus the number of draws consumed
so far. -/
structure Rng where
  stream : ℕ → ℝ
  cursor : ℕ

/-- `rng.standard_normal((nPaths, nMonths))`: the matrix entry `(p, t)` is
draw number `cursor + p * nMonths + t` (row-major), and the generator
advances by `nPaths * nMonths` draws. -/
def standardNormalDraw (rng : Rng) (nPaths nMonths : ℕ) : (ℕ → ℕ → ℝ) × Rng :=
  (fun p t => rng.stream (rng.cursor + (p * nMonths + t)),
   ⟨rng.stream, rng.cursor + nPaths * nMonths⟩)

/-- One month's GBM growth factor,
`np.exp((mu - 0.5 * sigma**2) * dt + sigma * np.sqrt(dt) * z)` with
`dt = 1/12` (`mc_equity.py` line 30, `housing.py` line 17; in
`mc_equity.py` the drift argument is the fee-adjusted `mu_adj`). -/
noncomputable def monthlyReturn (mu sigma zv : ℝ) : ℝ :=
  Real.exp ((mu - 0.5 * sigma ^ 2) * (1 / 12) + sigma * Real.sqrt (1 / 12) * zv)

/-- The shared path recurrence of `mc_equity.py` lines 33-37 and
`housing.py` lines 20-21: `paths[:, 0] = initial` and
`paths[:, t+1] = paths[:, t] * returns[:, t] + contributions[:, t]`
(a home-value path is the zero-contribution case). -/
noncomputable def portfolioPath (initialValue : ℝ) (ret contrib : ℕ → ℝ) : ℕ → ℝ
  | 0 => initialValue
  | t + 1 => portfolioPath initialValue ret contrib t * ret t + contrib t

/-- `simulate_equity_portfolio(initial_value, contributions, mu, sigma, fee,
n_months, n_paths, rng)` from `mc_equity.py`, with the normal draw matrix
`z` made explicit.  `mu_adj = mu - fee`; entry `(p, t)` of the returned
grid is the portfolio value of path `p` after `t` months. -/
noncomputable def simulate_equity_portfolio (initialValue : ℝ) (contributions : ℕ → ℕ → ℝ)
    (mu sigma fee : ℝ) (z : ℕ → ℕ → ℝ) : ℕ → ℕ → ℝ :=
  fun p =>
    portfolioPath initialValue
      (fun t => monthlyReturn (mu - fee) sigma (z p t))
      (fun t => contributions p t)

/-- `simulate_home_values(initial_price, mu, sigma, n_months, n_paths, rng)`
from `housing.py`, with the normal draw matrix `z` made explicit. -/
noncomputable def simulate_home_values (initialPrice mu sigma : ℝ) (z : ℕ → ℕ → ℝ) :
    ℕ → ℕ → ℝ :=
  fun p =>
    portfolioPath initialPrice (fun t => monthlyReturn mu sigma (z p t)) (fun _ => 0)

/-- `monthly_payment(principal, annual_rate, years)` from `mortgage.py`. -/
noncomputable def monthly_payment (principal annual_rate : ℝ) (years : ℕ) : ℝ :=
  if annual_rate = 0 then principal / ((years : ℝ) * 12)
  else
    principal * (annual_rate / 12) * (1 + annual_rate / 12) ^ (years * 12) /
      ((1 + annual_rate / 12) ^ (years * 12) - 1)

/-- The running `remaining` variable of the amortization loop in
`mortgage.py` (value before month `i`'s payment):
`remaining -= payment - remaining * r` each month. -/
noncomputable def amortRemaining (principal annual_rate : ℝ) (years : ℕ) : ℕ → ℝ
  | 0 => principal
  | i + 1 =>
      amortRemaining principal annual_rate years i -
        (monthly_payment principal annual_rate years -
          amortRemaining principal annual_rate years i * (annual_rate / 12))

/-- `interest_payments[i]` of `amortization_schedule`: zero in the
`annual_rate == 0` branch, otherwise `remaining * r`. -/
noncomputable def interest_payments (principal annual_rate : ℝ) (years : ℕ) (i : ℕ) : ℝ :=
  if annual_rate = 0 then 0
  else amortRemaining principal annual_rate years i * (annual_rate / 12)

/-- `principal_payments[i]` of `amortization_schedule`: the full payment in
the `annual_rate == 0` branch, otherwise `payment - interest`. -/
noncomputable def principal_payments (principal annual_rate : ℝ) (years : ℕ) (i : ℕ) : ℝ :=
  if annual_rate = 0 then monthly_payment principal annual_rate years
  else monthly_payment principal annual_rate years -
    interest_payments principal annual_rate years i

/-- `balance[i]` of `amortization_schedule`: in the `annual_rate == 0`
branch the code returns `np.linspace(principal, 0, n_months + 1)[:-1]`,
whose entry `i` is `principal * (n_months - i) / n_months`; otherwise the
post-payment remaining balance floored at zero, `max(0, remaining)`. -/
noncomputable def amortization_balance (principal annual_rate : ℝ) (years : ℕ) (i : ℕ) : ℝ :=
  if annual_rate = 0 then
    principal * (((years : ℝ) * 12) - (i : ℝ)) / ((years : ℝ) * 12)
  else max 0 (amortRemaining principal annual_rate years (i + 1))

/-- NumPy semantics of `num / den > thr` for a finite threshold `thr`:
when `den = 0`, the quotient is `+inf` (compares greater) if `num > 0`,
`nan` (compares false) if `num = 0`, and `-inf` (compares false) if
`num < 0`. -/
def npDivGt (num den thr : ℝ) : Prop :=
  if den = 0 then 0 < num else thr < num / den

noncomputable instance (num den thr : ℝ) : Decidable (npDivGt num den thr) := by
  unfold npDivGt; infer_instance

/-! ### `compose_invest_vs_buy` (`compose.py`), split into its named
intermediate quantities.  The seeded generator is consumed by exactly
three `standard_normal` calls, in order: home-price paths, buy-side
equity, invest-side equity. -/

/-- `n_months = params["years"] * 12`. -/
def nMonthsOf (params : Params) : ℕ := params.years * 12

/-- `down_payment = home_price * down_payment_pct`. -/
noncomputable def downPaymentOf (params : Params) : ℝ :=
  params.home_price * params.down_payment_pct

/-- `loan_amount = home_price - down_payment`, increased by the upfront
MIP when an FHA loan finances it. -/
noncomputable def loanAmountOf (params : Params) : ℝ :=
  match params.loan_type with
  | .FHA =>
      if params.mip_finance_upfront then
        (params.home_price - downPaymentOf params) +
          (params.home_price - downPaymentOf params) * params.mip_upfront
      else params.home_price - downPaymentOf params
  | .Conventional => params.home_price - downPaymentOf params

/-- The upfront MIP paid in cash at closing: `loan_amount * mip_upfront`
for an FHA loan unless it is financed into the loan (then 0); 0 for a
conventional loan. -/
noncomputable def upfrontMipOf (params : Params) : ℝ :=
  match params.loan_type with
  | .FHA =>
      if params.mip_finance_upfront then 0
      else (params.home_price - downPaymentOf params) * params.mip_upfront
  | .Conventional => 0

/-- `closing_costs = down_payment + upfront_mip`. -/
noncomputable def closingCostsOf (params : Params) : ℝ :=
  downPaymentOf params + upfrontMipOf params

/-- The home-value grid: first `standard_normal` draw of the comparison. -/
noncomputable def composeHomePaths (params : Params) (rng : Rng) : ℕ → ℕ → ℝ :=
  simulate_home_values params.home_price params.home_mu params.home_sigma
    (standardNormalDraw rng params.n_paths (nMonthsOf params)).1

/-- Generator state after the home-value draw. -/
def rngAfterHome (params : Params) (rng : Rng) : Rng :=
  (standardNormalDraw rng params.n_paths (nMonthsOf params)).2

/-- Generator state after the second (buy-side equity) draw. -/
def rngAfterBuy (params : Params) (rng : Rng) : Rng :=
  (standardNormalDraw (rngAfterHome params rng) params.n_paths (nMonthsOf params)).2

/-- Generator state after the third (invest-side equity) draw, i.e. at the
end of `compose_invest_vs_buy`. -/
def composeRngFinal (params : Params) (rng : Rng) : Rng :=
  (standardNormalDraw (rngAfterBuy params rng) params.n_paths (nMonthsOf params)).2

/-- The fixed monthly P&I payment used by `compose_invest_vs_buy`. -/
noncomputable def composePayment (params : Params) : ℝ :=
  monthly_payment (loanAmountOf params) params.mortgage_rate params.years

/-- The remaining-balance column `balance[t]` used by
`compose_invest_vs_buy` (shared across paths). -/
noncomputable def composeBalance (params : Params) (t : ℕ) : ℝ :=
  amortization_balance (loanAmountOf params) params.mortgage_rate params.years t

/-- Property tax per path and month: current home value times `rate/12`
under the `"current"` basis, original price times `rate/12` otherwise. -/
noncomputable def composePropertyTax (params : Params) (rng : Rng) : ℕ → ℕ → ℝ :=
  fun p t =>
    match params.tax_basis with
    | .current => composeHomePaths params rng p t * (params.property_tax_rate / 12)
    | .original => params.home_price * params.property_tax_rate / 12

/-- Homeowner insurance per path and month. -/
noncomputable def composeInsurance (params : Params) (rng : Rng) : ℕ → ℕ → ℝ :=
  fun p t => composeHomePaths params rng p t * (params.insurance_rate / 12)

/-- Maintenance cost per path and month. -/
noncomputable def composeMaintenance (params : Params) (rng : Rng) : ℕ → ℕ → ℝ :=
  fun p t => composeHomePaths params rng p t * (params.maintenance_rate / 12)

/-- `savings_paths[:, t] = monthly_savings * (1 + income_growth) ** (t / 12)`
(identical across paths). -/
noncomputable def composeSavings (params : Params) (t : ℕ) : ℝ :=
  params.monthly_savings * (1 + params.income_growth) ^ ((t : ℝ) / 12)

/-- The PMI/MIP grid of `compose.py`.  FHA with no removal LTV charges
`balance[t] * mip_rate / 12` every month; FHA with a configured removal
LTV branches on the truth value of the array comparison
`balance[t] / home_paths[:, t] > L`, which NumPy defines only for a
single path (the condition is then path 0's, see `composeRaises`);
Conventional applies `np.where(balance[t] / home_paths[:, t] > thr, ...)`
elementwise. -/
noncomputable def composePmiMip (params : Params) (rng : Rng) : ℕ → ℕ → ℝ :=
  fun p t =>
    match params.loan_type with
    | .FHA =>
        match params.mip_remove_ltv with
        | none => composeBalance params t * (params.mip_rate / 12)
        | some L =>
            if npDivGt (composeBalance params t) (composeHomePaths params rng 0 t) L then
              composeBalance params t * (params.mip_rate / 12)
            else 0
    | .Conventional =>
        if npDivGt (composeBalance params t) (composeHomePaths params rng p t)
            params.pmi_remove_ltv then
          composeBalance params t * (params.pmi_rate / 12)
        else 0

/-- The configuration on which `compose_invest_vs_buy` raises `ValueError`:
an FHA loan with a configured removal LTV makes the MIP loop evaluate the
truth value of a boolean array of length `n_paths`, which NumPy rejects
unless `n_paths = 1` (the loop body runs only when there is at least one
month). -/
def composeRaises (params : Params) : Prop :=
  params.loan_type = .FHA ∧ params.mip_remove_ltv.isSome = true ∧
    params.n_paths ≠ 1 ∧ 1 ≤ nMonthsOf params

instance (params : Params) : Decidable (composeRaises params) := by
  unfold composeRaises; infer_instance

/-- `housing_outflow = payment + property_tax + insurance + maintenance +
hoa + pmi_mip`, per path and month. -/
noncomputable def composeHousingOutflow (params : Params) (rng : Rng) : ℕ → ℕ → ℝ :=
  fun p t =>
    composePayment params + composePropertyTax params rng p t +
      composeInsurance params rng p t + composeMaintenance params rng p t +
      params.hoa_monthly + composePmiMip params rng p t

/-- `buy_contributions = np.maximum(0, savings_paths - housing_outflow)`. -/
noncomputable def composeBuyContributions (params : Params) (rng : Rng) : ℕ → ℕ → ℝ :=
  fun p t => max 0 (composeSavings params t - composeHousingOutflow params rng p t)

/-- The buy-side liquid portfolio: starts at 0 (closing costs were spent on
the house) and consumes the second `standard_normal` draw. -/
noncomputable def composeBuyLiquid (params : Params) (rng : Rng) : ℕ → ℕ → ℝ :=
  simulate_equity_portfolio 0 (composeBuyContributions params rng)
    params.equity_mu params.equity_sigma params.equity_fee
    (standardNormalDraw (rngAfterHome params rng) params.n_paths (nMonthsOf params)).1

/-- `balance_with_final`: the amortization balance column extended by a
final 0 (`np.column_stack([balance_array, np.zeros(n_paths)])`). -/
noncomputable def composeBalanceWithFinal (params : Params) (t : ℕ) : ℝ :=
  if t < nMonthsOf params then composeBalance params t else 0

/-- `home_equity = home_paths - balance_with_final`, with
`home_paths[:, -1] * selling_cost_rate` subtracted from the terminal
column when `selling_cost_rate > 0`. -/
noncomputable def composeHomeEquity (params : Params) (rng : Rng) : ℕ → ℕ → ℝ :=
  fun p t =>
    if 0 < params.selling_cost_rate ∧ t = nMonthsOf params then
      composeHomePaths params rng p t - composeBalanceWithFinal params t -
        composeHomePaths params rng p (nMonthsOf params) * params.selling_cost_rate
    else composeHomePaths params rng p t - composeBalanceWithFinal params t

/-- `buy_paths = buy_liquid_paths + home_equity`. -/
noncomputable def composeBuyPaths (params : Params) (rng : Rng) : ℕ → ℕ → ℝ :=
  fun p t => composeBuyLiquid params rng p t + composeHomeEquity params rng p t

/-- `rent_paths[:, t] = rent * (1 + rent_growth) ** (t / 12)` (identical
across paths). -/
noncomputable def composeRent (params : Params) (t : ℕ) : ℝ :=
  params.rent * (1 + params.rent_growth) ^ ((t : ℝ) / 12)

/-- `invest_contributions = np.maximum(0, savings_paths - rent_paths)`. -/
noncomputable def composeInvestContributions (params : Params) : ℕ → ℕ → ℝ :=
  fun _ t => max 0 (composeSavings params t - composeRent params t)

/-- The invest-side starting balance: `closing_costs` under parity,
otherwise `params.get("invest_initial", closing_costs)`. -/
noncomputable def composeInvestInitial (params : Params) : ℝ :=
  if params.enforce_parity then closingCostsOf params
  else (params.invest_initial).getD (closingCostsOf params)

/-- The invest-side portfolio: consumes the third `standard_normal` draw. -/
noncomputable def composeInvestPaths (params : Params) (rng : Rng) : ℕ → ℕ → ℝ :=
  simulate_equity_portfolio (composeInvestInitial params)
    (composeInvestContributions params)
    params.equity_mu params.equity_sigma params.equity_fee
    (standardNormalDraw (rngAfterBuy params rng) params.n_paths (nMonthsOf params)).1

/-- The result dictionary returned by `compose_invest_vs_buy`. -/
structure ComposeResult where
  invest_paths : ℕ → ℕ → ℝ
  buy_paths : ℕ → ℕ → ℝ
  rent_paths : ℕ → ℕ → ℝ
  home_paths : ℕ → ℕ → ℝ
  buy_liquid_paths : ℕ → ℕ → ℝ
  home_equity : ℕ → ℕ → ℝ
  closing_costs : ℝ
  payment : ℝ
  n_months : ℕ
  invest_contributions : ℕ → ℕ → ℝ
  buy_contributions : ℕ → ℕ → ℝ
  housing_outflow : ℕ → ℕ → ℝ

/-- The bundle assembled at the end of `compose_invest_vs_buy`. -/
noncomputable def composeResultOf (params : Params) (rng : Rng) : ComposeResult where
  invest_paths := composeInvestPaths params rng
  buy_paths := composeBuyPaths params rng
  rent_paths := fun _ t => composeRent params t
  home_paths := composeHomePaths params rng
  buy_liquid_paths := composeBuyLiquid params rng
  home_equity := composeHomeEquity params rng
  closing_costs := closingCostsOf params
  payment := composePayment params
  n_months := nMonthsOf params
  invest_contributions := composeInvestContributions params
  buy_contributions := composeBuyContributions params rng
  housing_outflow := composeHousingOutflow params rng

/-- `compose_invest_vs_buy(params)` with the seeded generator explicit.
Returns `.error ()` exactly when the MIP loop would raise `ValueError`
(`composeRaises`); the Python exception propagates before any result is
returned, so the error carries no partial data. -/
noncomputable def compose_invest_vs_buy (params : Params) (rng : Rng) :
    Except Unit ComposeResult :=
  if composeRaises params then .error () else .ok (composeResultOf params rng)

/-! ### `stats.py` -/

/-- An IEEE-754 double as it matters to `max_drawdown`: NaN, the two
infinities, or a finite real. -/
inductive NpFloat where
  | nan
  | ninf
  | pinf
  | fin (x : ℝ)

/-- `np.minimum` / the reduction step of `np.min`: NaN propagates, and
otherwise `-inf < finite < +inf`. -/
noncomputable def npMin : NpFloat → NpFloat → NpFloat
  | .nan, _ => .nan
  | _, .nan => .nan
  | .ninf, _ => .ninf
  | _, .ninf => .ninf
  | .pinf, y => y
  | x, .pinf => x
  | .fin a, .fin b => .fin (min a b)

/-- IEEE division of finite reals: `0/0` is NaN, `x/0` is `±inf` by the
sign of `x`, and otherwise the exact quotient. -/
noncomputable def npDivF (x y : ℝ) : NpFloat :=
  if y = 0 then (if x = 0 then .nan else if x < 0 then .ninf else .pinf)
  else .fin (x / y)

/-- `np.maximum.accumulate(paths[i])[t]`: the running maximum. -/
noncomputable def cummax (v : ℕ → ℝ) : ℕ → ℝ
  | 0 => v 0
  | t + 1 => max (cummax v t) (v (t + 1))

/-- One drawdown term `(paths[i][t] - cummax[t]) / cummax[t]`. -/
noncomputable def drawdownTerm (v : ℕ → ℝ) (t : ℕ) : NpFloat :=
  npDivF (v t - cummax v t) (cummax v t)

/-- `max_drawdown` for a single path over time indices `0..n`:
`np.min((paths[i] - cummax) / cummax)` from `stats.py`. -/
noncomputable def max_drawdown (v : ℕ → ℝ) : ℕ → NpFloat
  | 0 => drawdownTerm v 0
  | t + 1 => npMin (max_drawdown v t) (drawdownTerm v (t + 1))

/-! ### Concrete parameter records used to instantiate theorems -/

/-- The all-zero draw stream (every standard-normal draw equal to 0). -/
def zeroStream : ℕ → ℝ := fun _ => 0

/-- A benign conventional-loan configuration (one path, one year, all
growth and volatility zero). -/
noncomputable def testParams : Params where
  n_paths := 1
  years := 1
  home_price := 500000
  down_payment_pct := 0.2
  loan_type := .Conventional
  mip_upfront := 0.0175
  mip_finance_upfront := true
  mortgage_rate := 0.05
  home_mu := 0
  home_sigma := 0
  tax_basis := .current
  property_tax_rate := 0.015
  insurance_rate := 0.004
  maintenance_rate := 0.01
  hoa_monthly := 100
  monthly_savings := 5000
  income_growth := 0
  mip_remove_ltv := none
  mip_rate := 0.0085
  pmi_remove_ltv := 0.78
  pmi_rate := 0.005
  equity_mu := 0
  equity_sigma := 0
  equity_fee := 0
  rent := 2500
  rent_growth := 0
  selling_cost_rate := 0.07
  enforce_parity := true
  invest_initial := none

/-- `testParams` with parity disabled and a custom initial investment. -/
noncomputable def testParamsNoParity : Params :=
  { testParams with enforce_parity := false, invest_initial := some 12345 }

/-- An FHA configuration with a removal LTV and two paths: the MIP loop
evaluates the truth value of a two-element boolean array and raises. -/
noncomputable def fhaRaiseParams : Params :=
  { testParams with loan_type := .FHA, mip_remove_ltv := some 0.5, n_paths := 2 }

/-- A configuration whose home-value paths are identically negative
(negative initial price, zero drift and volatility) while the loan
balance is positive (down-payment fraction 2 makes the loan amount
`-100000 - (-200000) = 100000`).  The code accepts it: neither
`compose_invest_vs_buy` nor the simulators validate their inputs. -/
noncomputable def negHomeParams : Params :=
  { testParams with home_price := -100000, down_payment_pct := 2, mortgage_rate := 0 }

/-- A configuration whose home-value paths are identically zero. -/
noncomputable def zeroHomeParams : Params :=
  { testParams with home_price := 0, mortgage_rate := 0 }

/-- Conventional loan, 10% down, zero-rate mortgage over one year, and a
home-value path driven by `exp(z)` per month (drift 6 and volatility
`sqrt 12` make the GBM exponent exactly `z`): the draws `1, -2, 0, ...`
send the home value up (PMI removed) and then down (PMI back on). -/
noncomputable def pmiDemoParams : Params :=
  { testParams with
    home_price := 100
    down_payment_pct := 0.1
    mortgage_rate := 0
    home_mu := 6
    home_sigma := Real.sqrt 12 }

/-- Draw stream `1, -2, 0, 0, ...` for the PMI on/off/on demonstration. -/
noncomputable def pmiDemoStream : ℕ → ℝ :=
  fun i => if i = 0 then 1 else if i = 1 then -2 else 0

/-! ### General lemmas -/

/-- A successful `compose_invest_vs_buy` call returns exactly the bundle
`composeResultOf`. -/
theorem composeResult_of_ok {params : Params} {rng : Rng} {r : ComposeResult}
    (hok : compose_invest_vs_buy params rng = .ok r) :
    r = composeResultOf params rng := by
  unfold compose_invest_vs_buy at hok
  by_cases h : composeRaises params
  · rw [if_pos h] at hok
    exact absurd hok (by simp)
  · rw [if_neg h] at hok
    exact (Except.ok.injEq _ _ ▸ hok).symm

/-- `compose_invest_vs_buy` succeeds on any non-raising configuration. -/
theorem compose_ok_of_not_raises {params : Params} (rng : Rng)
    (h : ¬ composeRaises params) :
    compose_invest_vs_buy params rng = .ok (composeResultOf params rng) := by
  unfold compose_invest_vs_buy
  rw [if_neg h]

/-- `testParams` is a conventional loan, hence never raises. -/
theorem testParams_not_raises : ¬ composeRaises testParams := by
  intro h
  exact absurd h.1 (by simp [testParams, composeRaises])

/-- With zero drift, zero volatility and zero fee the monthly growth
factor is exactly 1. -/
theorem monthlyReturn_zero (zv : ℝ) : monthlyReturn 0 0 zv = 1 := by
  simp [monthlyReturn]

/-- Negating both the volatility and the draw leaves the monthly growth
factor unchanged (`sigma` enters through `sigma^2` and `sigma * z`). -/
theorem monthlyReturn_neg (mu sigma zv : ℝ) :
    monthlyReturn mu (-sigma) (-zv) = monthlyReturn mu sigma zv := by
  unfold monthlyReturn
  congr 1
  ring

/-- C1: when parity is enforced, every invest-side path starts at the
buy-side t=0 cash outlay `closing_costs` (down payment plus any
non-financed upfront mortgage-insurance premium); with parity disabled
and a custom initial amount `X` supplied, every invest-side path starts
at `X`. -/
theorem invest_initial_parity (params : Params) (rng : Rng) (r : ComposeResult)
    (hok : compose_invest_vs_buy params rng = .ok r) (p : ℕ) :
    (params.enforce_parity = true → r.invest_paths p 0 = r.closing_costs) ∧
    (∀ X : ℝ, params.enforce_parity = false → params.invest_initial = some X →
      r.invest_paths p 0 = X) := by
  rw [composeResult_of_ok hok]
  constructor
  · intro hp
    simp [composeResultOf, composeInvestPaths, simulate_equity_portfolio,
      portfolioPath, composeInvestInitial, hp]
  · intro X hp hX
    simp [composeResultOf, composeInvestPaths, simulate_equity_portfolio,
      portfolioPath, composeInvestInitial, hp, hX]

/-- Witness for C1: a concrete parity-enforced run starts at the closing
costs, and a concrete parity-disabled run with custom initial 12345
starts at 12345. -/
theorem invest_initial_parity_witness :
    compose_invest_vs_buy testParams ⟨zeroStream, 0⟩ =
      .ok (composeResultOf testParams ⟨zeroStream, 0⟩) ∧
    (composeResultOf testParams ⟨zeroStream, 0⟩).invest_paths 0 0 =
      (composeResultOf testParams ⟨zeroStream, 0⟩).closing_costs ∧
    compose_invest_vs_buy testParamsNoParity ⟨zeroStream, 0⟩ =
      .ok (composeResultOf testParamsNoParity ⟨zeroStream, 0⟩) ∧
    (composeResultOf testParamsNoParity ⟨zeroStream, 0⟩).invest_paths 0 0 = 12345 := by
  have h1 := @compose_ok_of_not_raises testParams ⟨zeroStream, 0⟩
    testParams_not_raises
  have hnr2 : ¬ composeRaises testParamsNoParity := by
    intro h
    exact absurd h.1 (by simp [testParamsNoParity, testParams, composeRaises])
  have h2 := @compose_ok_of_not_raises testParamsNoParity ⟨zeroStream, 0⟩ hnr2
  exact ⟨h1, (invest_initial_parity _ _ _ h1 0).1 rfl, h2,
    (invest_initial_parity _ _ _ h2 0).2 12345 rfl rfl⟩

/-- C3: with zero drift, zero volatility and zero fee, every path of the
contribution-bearing portfolio equals the initial value plus the running
sum of its contributions — exactly, with no dependence on the draws —
and with a constant monthly contribution `c` the value after `n` months
is `I + n·c`. -/
theorem zero_growth_reduces_to_contribution_sum (I : ℝ) (contrib z : ℕ → ℕ → ℝ)
    (p n : ℕ) :
    simulate_equity_portfolio I contrib 0 0 0 z p n =
      I + ∑ i in Finset.range n, contrib p i ∧
    (∀ c : ℝ, (∀ i, contrib p i = c) →
      simulate_equity_portfolio I contrib 0 0 0 z p n = I + n * c) := by
  have key : ∀ m, simulate_equity_portfolio I contrib 0 0 0 z p m =
      I + ∑ i in Finset.range m, contrib p i := by
    intro m
    unfold simulate_equity_portfolio
    induction m with
    | zero => simp [portfolioPath]
    | succ t ih =>
        simp only [sub_zero, monthlyReturn_zero] at ih ⊢
        simp only [portfolioPath, ih, mul_one, Finset.sum_range_succ]
        ring
  refine ⟨key n, fun c hc => ?_⟩
  rw [key n]
  simp [hc, Finset.sum_const, Finset.card_range, nsmul_eq_mul]

/-- Witness for C3: initial 100, constant contribution 7 over 3 months,
terminal value `100 + 3·7`. -/
theorem zero_growth_reduces_to_contribution_sum_witness :
    (∀ i : ℕ, (fun (_ _ : ℕ) => (7 : ℝ)) 0 i = 7) ∧
    simulate_equity_portfolio 100 (fun _ _ => (7 : ℝ)) 0 0 0 (fun _ _ => 0) 0 3 =
      100 + (3 : ℕ) * 7 :=
  ⟨fun _ => rfl,
    (zero_growth_reduces_to_contribution_sum 100 (fun _ _ => 7) (fun _ _ => 0) 0 3).2
      7 (fun _ => rfl)⟩

/-- C4 (exhibit of the defect): at principal 360000, annual rate 0 and a
30-year term, `amortization_schedule` returns a balance array ending at
`P / n_months = 1000`, far outside any "≈ 0 (±1)" tolerance: the
zero-rate branch returns `np.linspace(P, 0, n_months + 1)[:-1]`, the
pre-payment balances, whose last entry is `P / n_months`. -/
theorem amortization_zero_rate_balance_endpoint :
    amortization_balance 360000 0 30 359 = 1000 ∧ (1 : ℝ) < 1000 := by
  constructor
  · unfold amortization_balance
    rw [if_pos rfl]
    norm_num
  · norm_num

/-- C9 counterexample: the simulation performs no input validation.  With
volatility `sigma = -1 < 0` it computes and returns a full grid (months
0 and 1 shown) instead of rejecting the configuration before
allocation. -/
theorem simulate_negative_sigma_returns_grid :
    ((-1 : ℝ) < 0) ∧
    simulate_equity_portfolio 5 (fun _ _ => 0) 0 (-1) 0 (fun _ _ => 0) 0 0 = 5 ∧
    simulate_equity_portfolio 5 (fun _ _ => 0) 0 (-1) 0 (fun _ _ => 0) 0 1 =
      5 * Real.exp (-(1 / 24)) := by
  refine ⟨by norm_num, rfl, ?_⟩
  simp only [simulate_equity_portfolio, portfolioPath, monthlyReturn]
  norm_num

/-- C9 amended: no configuration error is raised.  A negative volatility
is accepted — the resulting grid coincides with the one for `-sigma`
with negated draws — and a zero month count is accepted, yielding just
the initial-value column for both the portfolio and the home-value
simulators. -/
theorem simulate_accepts_invalid_config :
    (∀ (I : ℝ) (contrib : ℕ → ℕ → ℝ) (mu sigma fee : ℝ) (z : ℕ → ℕ → ℝ) (p t : ℕ),
      simulate_equity_portfolio I contrib mu sigma fee z p t =
        simulate_equity_portfolio I contrib mu (-sigma) fee (fun q s => -(z q s)) p t) ∧
    (∀ (I : ℝ) (contrib : ℕ → ℕ → ℝ) (mu sigma fee : ℝ) (z : ℕ → ℕ → ℝ) (p : ℕ),
      simulate_equity_portfolio I contrib mu sigma fee z p 0 = I) ∧
    (∀ (P mu sigma : ℝ) (z : ℕ → ℕ → ℝ) (p : ℕ),
      simulate_home_values P mu sigma z p 0 = P) := by
  refine ⟨?_, fun _ _ _ _ _ _ _ => rfl, fun _ _ _ _ _ => rfl⟩
  intro I contrib mu sigma fee z p t
  unfold simulate_equity_portfolio
  induction t with
  | zero => rfl
  | succ t ih => simp only [portfolioPath, ih, monthlyReturn_neg]

/-- On a conventional loan the PMI grid is the elementwise
`np.where(balance[t] / home > thr, balance[t] * pmi_rate / 12, 0)`. -/
theorem composePmiMip_conventional (params : Params) (rng : Rng) (p t : ℕ)
    (hl : params.loan_type = LoanType.Conventional) :
    composePmiMip params rng p t =
      if npDivGt (composeBalance params t) (composeHomePaths params rng p t)
          params.pmi_remove_ltv then
        composeBalance params t * (params.pmi_rate / 12)
      else 0 := by
  unfold composePmiMip
  rw [hl]

/-- C6 (exhibit of the defect): with an FHA loan, a configured removal
LTV and more than one path, the MIP loop executes
`if balance[t] / home_paths[:, t] > L:` — the truth value of a
multi-element boolean array — and NumPy raises `ValueError`, so
`compose_invest_vs_buy` fails instead of zeroing MIP per path and
month as the claim describes. -/
theorem fha_removal_ltv_raises :
    compose_invest_vs_buy fhaRaiseParams ⟨zeroStream, 0⟩ = .error () ∧
    fhaRaiseParams.loan_type = LoanType.FHA ∧
    fhaRaiseParams.mip_remove_ltv = some 0.5 ∧
    fhaRaiseParams.n_paths = 2 := by
  refine ⟨?_, rfl, rfl, rfl⟩
  rw [compose_invest_vs_buy, if_pos]
  exact ⟨rfl, rfl, by decide, by decide⟩

/-- C7: home equity per path and month is home value minus the remaining
balance (the amortization balance column, frozen at 0 at and past the
final month), and the selling-cost deduction
`home_value(T) * selling_cost_rate` is applied at the terminal month
only — months before the horizon carry no deduction. -/
theorem home_equity_terminal_selling_cost (params : Params) (rng : Rng)
    (r : ComposeResult) (hok : compose_invest_vs_buy params rng = .ok r)
    (p t : ℕ) (_ht : t ≤ nMonthsOf params) :
    r.home_equity p t = r.home_paths p t - composeBalanceWithFinal params t -
      (if t = nMonthsOf params ∧ 0 < params.selling_cost_rate then
        r.home_paths p (nMonthsOf params) * params.selling_cost_rate else 0) ∧
    (t < nMonthsOf params →
      r.home_equity p t = r.home_paths p t - composeBalance params t) := by
  rw [composeResult_of_ok hok]
  simp only [composeResultOf]
  constructor
  · unfold composeHomeEquity
    by_cases h1 : 0 < params.selling_cost_rate
    · by_cases h2 : t = nMonthsOf params
      · rw [if_pos ⟨h1, h2⟩, if_pos ⟨h2, h1⟩, h2]
      · rw [if_neg (fun h => h2 h.2), if_neg (fun h => h2 h.1)]
        ring
    · rw [if_neg (fun h => h1 h.1), if_neg (fun h => h1 h.2)]
      ring
  · intro hlt
    unfold composeHomeEquity composeBalanceWithFinal
    rw [if_neg (fun h => absurd h.2 (Nat.ne_of_lt hlt)), if_pos hlt]

/-- Witness for C7: the benign conventional run at month 0 (before the
horizon) has equity `home - balance` with no selling-cost deduction. -/
theorem home_equity_terminal_selling_cost_witness :
    compose_invest_vs_buy testParams ⟨zeroStream, 0⟩ =
      .ok (composeResultOf testParams ⟨zeroStream, 0⟩) ∧
    (0 ≤ nMonthsOf testParams ∧ 0 < nMonthsOf testParams) ∧
    (composeResultOf testParams ⟨zeroStream, 0⟩).home_equity 0 0 =
      (composeResultOf testParams ⟨zeroStream, 0⟩).home_paths 0 0 -
        composeBalance testParams 0 := by
  have h1 := @compose_ok_of_not_raises testParams ⟨zeroStream, 0⟩
    testParams_not_raises
  exact ⟨h1, ⟨by decide, by decide⟩,
    (home_equity_terminal_selling_cost testParams ⟨zeroStream, 0⟩ _ h1 0 0
      (by decide)).2 (by decide)⟩

/-- C8 counterexample: a configuration the code accepts (negative initial
price, down-payment fraction 2, so the home value is `-100000` on every
path and month while the balance is `+100000`): the home value is
non-positive, yet the LTV comparison `100000 / (-100000) > 0.78` is
false, so the premium is dropped (PMI = 0) instead of remaining charged
(`balance * pmi_rate / 12 > 0`). -/
theorem pmi_negative_home_value_premium_dropped :
    negHomeParams.loan_type = LoanType.Conventional ∧
    composeHomePaths negHomeParams ⟨zeroStream, 0⟩ 0 0 < 0 ∧
    0 < composeBalance negHomeParams 0 * (negHomeParams.pmi_rate / 12) ∧
    composePmiMip negHomeParams ⟨zeroStream, 0⟩ 0 0 = 0 := by
  have hhome : composeHomePaths negHomeParams ⟨zeroStream, 0⟩ 0 0 = -100000 := rfl
  have hbal : composeBalance negHomeParams 0 = 100000 := by
    unfold composeBalance amortization_balance loanAmountOf downPaymentOf
    norm_num [negHomeParams, testParams]
  refine ⟨rfl, by rw [hhome]; norm_num, ?_, ?_⟩
  · rw [hbal]
    norm_num [negHomeParams, testParams]
  · rw [composePmiMip_conventional _ _ _ _ rfl, hhome, hbal, if_neg]
    unfold npDivGt
    rw [if_neg (by norm_num)]
    norm_num [negHomeParams, testParams]

/-- C8 amended: only a zero home value can make the LTV division
degenerate, and there the code's reliance on IEEE semantics does charge
the premium: with `home = 0` and `balance ≥ 0` the premium equals
`balance * pmi_rate / 12` (for `balance > 0` the quotient is `+inf`,
which exceeds the threshold; for `balance = 0` the premium is 0 either
way).  A *negative* home value — reachable only from a negative initial
price — instead yields a negative LTV and the premium is dropped. -/
theorem pmi_zero_home_value_remains_charged (params : Params) (rng : Rng) (p t : ℕ)
    (hl : params.loan_type = LoanType.Conventional)
    (hh : composeHomePaths params rng p t = 0)
    (hb : 0 ≤ composeBalance params t) :
    composePmiMip params rng p t =
      composeBalance params t * (params.pmi_rate / 12) := by
  rw [composePmiMip_conventional _ _ _ _ hl, hh]
  rcases lt_or_eq_of_le hb with hpos | hzero
  · rw [if_pos (show npDivGt (composeBalance params t) 0 params.pmi_remove_ltv by
      unfold npDivGt
      rw [if_pos rfl]
      exact hpos)]
  · rw [if_neg (show ¬ npDivGt (composeBalance params t) 0 params.pmi_remove_ltv by
      unfold npDivGt
      rw [if_pos rfl, ← hzero]
      exact lt_irrefl 0), ← hzero]
    ring

/-- Witness for C8's amended statement: with initial price 0 the home
value and balance are both 0 and the premium equals
`balance * pmi_rate / 12 = 0`. -/
theorem pmi_zero_home_value_remains_charged_witness :
    zeroHomeParams.loan_type = LoanType.Conventional ∧
    composeHomePaths zeroHomeParams ⟨zeroStream, 0⟩ 0 0 = 0 ∧
    0 ≤ composeBalance zeroHomeParams 0 ∧
    composePmiMip zeroHomeParams ⟨zeroStream, 0⟩ 0 0 =
      composeBalance zeroHomeParams 0 * (zeroHomeParams.pmi_rate / 12) := by
  have hb : (0 : ℝ) ≤ composeBalance zeroHomeParams 0 := by
    unfold composeBalance amortization_balance loanAmountOf downPaymentOf
    norm_num [zeroHomeParams, testParams]
  exact ⟨rfl, rfl, hb,
    pmi_zero_home_value_remains_charged zeroHomeParams ⟨zeroStream, 0⟩ 0 0 rfl rfl hb⟩

/-- C10: `max_drawdown` divides by the running maximum with no guard.
When the running maximum is strictly positive at every step the per-path
result is a finite real; but a path whose value at t=0 is 0 makes the
first term `0/0` (NaN), which the `np.min` reduction propagates, so the
per-path result is NaN — and every buy-side liquid portfolio path is
initialized at 0, so its drawdown is NaN over any window. -/
theorem max_drawdown_nan_on_zero_start :
    (∀ (v : ℕ → ℝ) (n : ℕ), (∀ t, t ≤ n → 0 < cummax v t) →
      ∃ x : ℝ, max_drawdown v n = .fin x) ∧
    (∀ (v : ℕ → ℝ) (n : ℕ), v 0 = 0 → max_drawdown v n = .nan) ∧
    (∀ (params : Params) (rng : Rng) (r : ComposeResult),
      compose_invest_vs_buy params rng = .ok r → ∀ p n,
        r.buy_liquid_paths p 0 = 0 ∧
        max_drawdown (fun t => r.buy_liquid_paths p t) n = NpFloat.nan) := by
  have hnan : ∀ (v : ℕ → ℝ), v 0 = 0 → ∀ n, max_drawdown v n = .nan := by
    intro v hv n
    have h0 : drawdownTerm v 0 = .nan := by
      unfold drawdownTerm cummax npDivF
      rw [hv]
      norm_num
    induction n with
    | zero =>
        show drawdownTerm v 0 = _
        exact h0
    | succ t ih =>
        show npMin (max_drawdown v t) (drawdownTerm v (t + 1)) = _
        rw [ih]
        cases drawdownTerm v (t + 1) <;> rfl
  refine ⟨?_, fun v n hv => hnan v hv n, ?_⟩
  · intro v n h
    induction n with
    | zero =>
        refine ⟨(v 0 - cummax v 0) / cummax v 0, ?_⟩
        show drawdownTerm v 0 = _
        unfold drawdownTerm npDivF
        rw [if_neg (ne_of_gt (h 0 le_rfl))]
    | succ t ih =>
        obtain ⟨x, hx⟩ := ih fun s hs => h s (le_trans hs (Nat.le_succ t))
        refine ⟨min x ((v (t + 1) - cummax v (t + 1)) / cummax v (t + 1)), ?_⟩
        show npMin (max_drawdown v t) (drawdownTerm v (t + 1)) = _
        rw [hx]
        unfold drawdownTerm npDivF
        rw [if_neg (ne_of_gt (h (t + 1) le_rfl))]
        rfl
  · intro params rng r hok p n
    rw [composeResult_of_ok hok]
    exact ⟨rfl, hnan _ rfl n⟩

/-- Witness for C10: a constant-1 path has a finite drawdown; the
constant-0 path gives NaN; the benign conventional run's buy-side liquid
path starts at 0 and its drawdown over months 0..2 is NaN. -/
theorem max_drawdown_nan_on_zero_start_witness :
    (∀ t, t ≤ 0 → 0 < cummax (fun _ => (1 : ℝ)) t) ∧
    (∃ x : ℝ, max_drawdown (fun _ => (1 : ℝ)) 0 = .fin x) ∧
    max_drawdown (fun _ => (0 : ℝ)) 3 = .nan ∧
    compose_invest_vs_buy testParams ⟨zeroStream, 0⟩ =
      .ok (composeResultOf testParams ⟨zeroStream, 0⟩) ∧
    (composeResultOf testParams ⟨zeroStream, 0⟩).buy_liquid_paths 0 0 = 0 ∧
    max_drawdown
      (fun t => (composeResultOf testParams ⟨zeroStream, 0⟩).buy_liquid_paths 0 t) 2 =
      NpFloat.nan := by
  have hpos : ∀ t, t ≤ 0 → 0 < cummax (fun _ => (1 : ℝ)) t := by
    intro t ht
    have h0 : t = 0 := Nat.le_zero.mp ht
    subst h0
    norm_num [cummax]
  have h1 := @compose_ok_of_not_raises testParams ⟨zeroStream, 0⟩
    testParams_not_raises
  obtain ⟨hz, hmd⟩ :=
    max_drawdown_nan_on_zero_start.2.2 testParams ⟨zeroStream, 0⟩ _ h1 0 2
  exact ⟨hpos, max_drawdown_nan_on_zero_start.1 _ 0 hpos,
    max_drawdown_nan_on_zero_start.2.1 _ 3 rfl, h1, hz, hmd⟩

/-- With a finite nonzero home value the NumPy comparison is the real
one. -/
theorem npDivGt_of_ne (num den thr : ℝ) (h : den ≠ 0) :
    npDivGt num den thr ↔ thr < num / den := by
  unfold npDivGt
  rw [if_neg h]

/-- Drift 6 and volatility `sqrt 12` make the monthly GBM factor exactly
`exp z` (the drift and variance terms cancel and `sqrt 12 * sqrt (1/12)
= 1`). -/
theorem monthlyReturn_demo (zv : ℝ) :
    monthlyReturn 6 (Real.sqrt 12) zv = Real.exp zv := by
  unfold monthlyReturn
  rw [Real.sq_sqrt (by norm_num : (0 : ℝ) ≤ 12),
    ← Real.sqrt_mul (by norm_num : (0 : ℝ) ≤ 12)]
  norm_num

/-- Demo run, month 0: home value is the initial price 100. -/
theorem demoHome0 : composeHomePaths pmiDemoParams ⟨pmiDemoStream, 0⟩ 0 0 = 100 := rfl

/-- Demo run, month 1: the draw 1 multiplies the home value by `exp 1`. -/
theorem demoHome1 :
    composeHomePaths pmiDemoParams ⟨pmiDemoStream, 0⟩ 0 1 = 100 * Real.exp 1 := by
  unfold composeHomePaths simulate_home_values standardNormalDraw
  simp only [portfolioPath]
  norm_num [pmiDemoParams, testParams, pmiDemoStream, monthlyReturn_demo]

/-- Demo run, month 2: the draw -2 multiplies on a further `exp (-2)`. -/
theorem demoHome2 :
    composeHomePaths pmiDemoParams ⟨pmiDemoStream, 0⟩ 0 2 =
      100 * Real.exp 1 * Real.exp (-2) := by
  unfold composeHomePaths simulate_home_values standardNormalDraw
  simp only [portfolioPath]
  norm_num [pmiDemoParams, testParams, pmiDemoStream, monthlyReturn_demo]

/-- Demo run: the zero-rate one-year loan of 90 amortizes linearly. -/
theorem demoBalance (t : ℕ) :
    composeBalance pmiDemoParams t = 90 * (12 - (t : ℝ)) / 12 := by
  unfold composeBalance amortization_balance loanAmountOf downPaymentOf
  norm_num [pmiDemoParams, testParams]

/-- C5: on a conventional loan, PMI is re-evaluated independently for
every path and month: it equals `balance[t] * pmi_rate / 12` exactly
when that path's loan-to-value `balance[t] / home_value(t)` exceeds the
removal threshold, and 0 otherwise — and because of the monthly
re-evaluation a single path can have PMI on (month 0), off after the
home value rises (month 1), and on again after it falls (month 2),
as the demo configuration exhibits. -/
theorem pmi_conventional_monthly_rule :
    (∀ (params : Params) (rng : Rng) (p t : ℕ),
      params.loan_type = LoanType.Conventional →
      composeHomePaths params rng p t ≠ 0 →
      composePmiMip params rng p t =
        if params.pmi_remove_ltv <
            composeBalance params t / composeHomePaths params rng p t then
          composeBalance params t * (params.pmi_rate / 12)
        else 0) ∧
    (pmiDemoParams.loan_type = LoanType.Conventional ∧
      0 < composePmiMip pmiDemoParams ⟨pmiDemoStream, 0⟩ 0 0 ∧
      composePmiMip pmiDemoParams ⟨pmiDemoStream, 0⟩ 0 1 = 0 ∧
      0 < composePmiMip pmiDemoParams ⟨pmiDemoStream, 0⟩ 0 2 ∧
      composeHomePaths pmiDemoParams ⟨pmiDemoStream, 0⟩ 0 2 <
        composeHomePaths pmiDemoParams ⟨pmiDemoStream, 0⟩ 0 1) := by
  have hrule : ∀ (params : Params) (rng : Rng) (p t : ℕ),
      params.loan_type = LoanType.Conventional →
      composeHomePaths params rng p t ≠ 0 →
      composePmiMip params rng p t =
        if params.pmi_remove_ltv <
            composeBalance params t / composeHomePaths params rng p t then
          composeBalance params t * (params.pmi_rate / 12)
        else 0 := by
    intro params rng p t hl hne
    rw [composePmiMip_conventional _ _ _ _ hl]
    simp only [npDivGt_of_ne _ _ _ hne]
  have hL : pmiDemoParams.pmi_remove_ltv = 0.78 := rfl
  have hrate : pmiDemoParams.pmi_rate = 0.005 := rfl
  have hbal0 : composeBalance pmiDemoParams 0 = 90 := by rw [demoBalance]; norm_num
  have hbal1 : composeBalance pmiDemoParams 1 = 82.5 := by rw [demoBalance]; norm_num
  have hbal2 : composeBalance pmiDemoParams 2 = 75 := by rw [demoBalance]; norm_num
  have he1 : (0 : ℝ) < Real.exp 1 := Real.exp_pos 1
  have he2 : (0 : ℝ) < Real.exp (-2) := Real.exp_pos (-2)
  have hgt : (2.7182818283 : ℝ) < Real.exp 1 := Real.exp_one_gt_d9
  refine ⟨hrule, rfl, ?_, ?_, ?_, ?_⟩
  · rw [hrule pmiDemoParams ⟨pmiDemoStream, 0⟩ 0 0 rfl (by rw [demoHome0]; norm_num),
      demoHome0, hbal0, hL, hrate, if_pos (by norm_num)]
    norm_num
  · rw [hrule pmiDemoParams ⟨pmiDemoStream, 0⟩ 0 1 rfl
      (by rw [demoHome1]; positivity), demoHome1, hbal1, hL, if_neg]
    rw [not_lt, div_le_iff₀ (by positivity)]
    nlinarith
  · rw [hrule pmiDemoParams ⟨pmiDemoStream, 0⟩ 0 2 rfl
      (by rw [demoHome2]; positivity), demoHome2, hbal2, hL, hrate, if_pos]
    · norm_num
    · rw [lt_div_iff₀ (by positivity), mul_assoc, ← Real.exp_add]
      have hu : (0 : ℝ) < (Real.exp 1)⁻¹ := inv_pos.mpr he1
      have hc : Real.exp 1 * (Real.exp 1)⁻¹ = 1 := mul_inv_cancel₀ (ne_of_gt he1)
      rw [show (1 : ℝ) + -2 = -1 by norm_num, Real.exp_neg]
      nlinarith
  · rw [demoHome1, demoHome2]
    nlinarith [he1, he2, Real.exp_lt_one_iff.mpr (by norm_num : (-2 : ℝ) < 0)]

/-- Witness for C5: the formula conjunct instantiated at the demo run's
month 0, where the home value is 100 and LTV `90/100` exceeds 0.78. -/
theorem pmi_conventional_monthly_rule_witness :
    pmiDemoParams.loan_type = LoanType.Conventional ∧
    composeHomePaths pmiDemoParams ⟨pmiDemoStream, 0⟩ 0 0 ≠ 0 ∧
    composePmiMip pmiDemoParams ⟨pmiDemoStream, 0⟩ 0 0 =
      if pmiDemoParams.pmi_remove_ltv <
          composeBalance pmiDemoParams 0 /
            composeHomePaths pmiDemoParams ⟨pmiDemoStream, 0⟩ 0 0 then
        composeBalance pmiDemoParams 0 * (pmiDemoParams.pmi_rate / 12)
      else 0 := by
  have hne : composeHomePaths pmiDemoParams ⟨pmiDemoStream, 0⟩ 0 0 ≠ 0 := by
    rw [demoHome0]
    norm_num
  exact ⟨rfl, hne, pmi_conventional_monthly_rule.1 pmiDemoParams ⟨pmiDemoStream, 0⟩ 0 0 rfl hne⟩

/-- The path recurrence reads only the growth factors and contributions
of months strictly before `t`. -/
theorem portfolioPath_congr (initial : ℝ) (r₁ r₂ c₁ c₂ : ℕ → ℝ) :
    ∀ t, (∀ i, i < t → r₁ i = r₂ i) → (∀ i, i < t → c₁ i = c₂ i) →
      portfolioPath initial r₁ c₁ t = portfolioPath initial r₂ c₂ t := by
  intro t
  induction t with
  | zero => intro _ _; rfl
  | succ t ih =>
      intro hr hc
      simp only [portfolioPath]
      rw [ih (fun i hi => hr i (Nat.lt_succ_of_lt hi))
          (fun i hi => hc i (Nat.lt_succ_of_lt hi)),
        hr t (Nat.lt_succ_of_le le_rfl), hc t (Nat.lt_succ_of_le le_rfl)]

/-- Row-major index bound: entry `(p, i)` of an `nP × nM` draw lies in
the first `nP * nM` stream positions. -/
theorem blockIndexBound (nP nM p i : ℕ) (hp : p < nP) (hi : i < nM) :
    p * nM + i < nP * nM :=
  calc p * nM + i < p * nM + nM := by omega
    _ = (p + 1) * nM := by ring
    _ ≤ nP * nM := Nat.mul_le_mul_right nM (Nat.succ_le_of_lt hp)

/-- The home grid depends only on the first `n_paths * n_months` draws. -/
theorem composeHomePaths_agree (params : Params) (ω₁ ω₂ : ℕ → ℝ)
    (h : ∀ i, i < params.n_paths * nMonthsOf params → ω₁ i = ω₂ i)
    (p : ℕ) (hp : p < params.n_paths) (t : ℕ) (ht : t ≤ nMonthsOf params) :
    composeHomePaths params ⟨ω₁, 0⟩ p t = composeHomePaths params ⟨ω₂, 0⟩ p t := by
  unfold composeHomePaths simulate_home_values standardNormalDraw
  dsimp only
  apply portfolioPath_congr
  · intro i hi
    have hidx : p * nMonthsOf params + i < params.n_paths * nMonthsOf params :=
      blockIndexBound _ _ _ _ hp (lt_of_lt_of_le hi ht)
    rw [h (0 + (p * nMonthsOf params + i)) (by simpa using hidx)]
  · intro _ _
    rfl

/-- An `.ok` result implies the raising configuration is absent. -/
theorem not_raises_of_ok {params : Params} {rng : Rng} {r : ComposeResult}
    (hok : compose_invest_vs_buy params rng = .ok r) : ¬ composeRaises params := by
  intro hr
  unfold compose_invest_vs_buy at hok
  rw [if_pos hr] at hok
  exact absurd hok (by simp)

/-- The PMI/MIP grid (at a month inside the horizon) depends only on the
first draw block. -/
theorem composePmiMip_agree (params : Params) (ω₁ ω₂ : ℕ → ℝ)
    (h : ∀ i, i < params.n_paths * nMonthsOf params → ω₁ i = ω₂ i)
    (hnr : ¬ composeRaises params)
    (p : ℕ) (hp : p < params.n_paths) (t : ℕ) (ht : t < nMonthsOf params) :
    composePmiMip params ⟨ω₁, 0⟩ p t = composePmiMip params ⟨ω₂, 0⟩ p t := by
  unfold composePmiMip
  cases hl : params.loan_type with
  | Conventional => rw [composeHomePaths_agree params ω₁ ω₂ h p hp t (le_of_lt ht)]
  | FHA =>
      cases hm : params.mip_remove_ltv with
      | none => rfl
      | some L =>
          have hp1 : params.n_paths = 1 := by
            by_contra hne
            exact hnr ⟨hl, by rw [hm]; rfl, hne, by omega⟩
          rw [composeHomePaths_agree params ω₁ ω₂ h 0 (by omega) t (le_of_lt ht)]

/-- The housing outflow grid (inside the horizon) depends only on the
first draw block. -/
theorem composeHousingOutflow_agree (params : Params) (ω₁ ω₂ : ℕ → ℝ)
    (h : ∀ i, i < params.n_paths * nMonthsOf params → ω₁ i = ω₂ i)
    (hnr : ¬ composeRaises params)
    (p : ℕ) (hp : p < params.n_paths) (t : ℕ) (ht : t < nMonthsOf params) :
    composeHousingOutflow params ⟨ω₁, 0⟩ p t =
      composeHousingOutflow params ⟨ω₂, 0⟩ p t := by
  unfold composeHousingOutflow composePropertyTax composeInsurance composeMaintenance
  rw [composeHomePaths_agree params ω₁ ω₂ h p hp t (le_of_lt ht),
    composePmiMip_agree params ω₁ ω₂ h hnr p hp t ht]

/-- The buy-side contribution grid (inside the horizon) depends only on
the first draw block. -/
theorem composeBuyContributions_agree (params : Params) (ω₁ ω₂ : ℕ → ℝ)
    (h : ∀ i, i < params.n_paths * nMonthsOf params → ω₁ i = ω₂ i)
    (hnr : ¬ composeRaises params)
    (p : ℕ) (hp : p < params.n_paths) (t : ℕ) (ht : t < nMonthsOf params) :
    composeBuyContributions params ⟨ω₁, 0⟩ p t =
      composeBuyContributions params ⟨ω₂, 0⟩ p t := by
  unfold composeBuyContributions
  rw [composeHousingOutflow_agree params ω₁ ω₂ h hnr p hp t ht]

/-- The buy-side liquid grid depends only on the first two draw blocks. -/
theorem composeBuyLiquid_agree (params : Params) (ω₁ ω₂ : ℕ → ℝ)
    (h : ∀ i, i < 2 * (params.n_paths * nMonthsOf params) → ω₁ i = ω₂ i)
    (hnr : ¬ composeRaises params)
    (p : ℕ) (hp : p < params.n_paths) (t : ℕ) (ht : t ≤ nMonthsOf params) :
    composeBuyLiquid params ⟨ω₁, 0⟩ p t = composeBuyLiquid params ⟨ω₂, 0⟩ p t := by
  have h0 : ∀ i, i < params.n_paths * nMonthsOf params → ω₁ i = ω₂ i :=
    fun i hi => h i (by omega)
  unfold composeBuyLiquid simulate_equity_portfolio rngAfterHome standardNormalDraw
  dsimp only
  apply portfolioPath_congr
  · intro i hi
    have hidx : p * nMonthsOf params + i < params.n_paths * nMonthsOf params :=
      blockIndexBound _ _ _ _ hp (lt_of_lt_of_le hi ht)
    rw [h (0 + params.n_paths * nMonthsOf params + (p * nMonthsOf params + i))
      (by omega)]
  · intro i hi
    exact composeBuyContributions_agree params ω₁ ω₂ h0 hnr p hp i
      (lt_of_lt_of_le hi ht)

/-- The home-equity grid depends only on the first draw block. -/
theorem composeHomeEquity_agree (params : Params) (ω₁ ω₂ : ℕ → ℝ)
    (h : ∀ i, i < params.n_paths * nMonthsOf params → ω₁ i = ω₂ i)
    (p : ℕ) (hp : p < params.n_paths) (t : ℕ) (ht : t ≤ nMonthsOf params) :
    composeHomeEquity params ⟨ω₁, 0⟩ p t = composeHomeEquity params ⟨ω₂, 0⟩ p t := by
  unfold composeHomeEquity
  rw [composeHomePaths_agree params ω₁ ω₂ h p hp t ht,
    composeHomePaths_agree params ω₁ ω₂ h p hp (nMonthsOf params) le_rfl]

/-- The invest-side grid depends only on the third draw block (its
contributions involve only rent and savings, not the home paths). -/
theorem composeInvestPaths_agree (params : Params) (ω₁ ω₂ : ℕ → ℝ)
    (h : ∀ i, 2 * (params.n_paths * nMonthsOf params) ≤ i →
      i < 3 * (params.n_paths * nMonthsOf params) → ω₁ i = ω₂ i)
    (p : ℕ) (hp : p < params.n_paths) (t : ℕ) (ht : t ≤ nMonthsOf params) :
    composeInvestPaths params ⟨ω₁, 0⟩ p t = composeInvestPaths params ⟨ω₂, 0⟩ p t := by
  unfold composeInvestPaths simulate_equity_portfolio rngAfterBuy rngAfterHome
    standardNormalDraw
  dsimp only
  apply portfolioPath_congr
  · intro i hi
    have hidx : p * nMonthsOf params + i < params.n_paths * nMonthsOf params :=
      blockIndexBound _ _ _ _ hp (lt_of_lt_of_le hi ht)
    rw [h (0 + params.n_paths * nMonthsOf params + params.n_paths * nMonthsOf params +
      (p * nMonthsOf params + i)) (by omega) (by omega)]
  · intro _ _
    rfl

/-- C2: `compose_invest_vs_buy` is deterministic in (parameters, seed).
The seeded generator is consumed by exactly three `standard_normal`
draws in the fixed order home-price paths, then buy-side equity, then
invest-side equity — `3·n_paths·n_months` values in total, as the final
cursor records.  Any two streams agreeing on those values produce
identical path grids on every path and month of the result (in
particular, replaying the same seed reproduces the grids exactly);
moreover the home grid depends only on the first block and the
invest grid only on the third, witnessing the draw order. -/
theorem compose_deterministic_three_draws (params : Params) (ω₁ ω₂ : ℕ → ℝ)
    (h : ∀ i, i < 3 * (params.n_paths * nMonthsOf params) → ω₁ i = ω₂ i) :
    (composeRngFinal params ⟨ω₁, 0⟩).cursor =
      3 * (params.n_paths * nMonthsOf params) ∧
    (∀ r₁ r₂, compose_invest_vs_buy params ⟨ω₁, 0⟩ = .ok r₁ →
      compose_invest_vs_buy params ⟨ω₂, 0⟩ = .ok r₂ →
      ∀ p, p < params.n_paths → ∀ t, t ≤ nMonthsOf params →
        r₁.home_paths p t = r₂.home_paths p t ∧
        r₁.buy_liquid_paths p t = r₂.buy_liquid_paths p t ∧
        r₁.home_equity p t = r₂.home_equity p t ∧
        r₁.buy_paths p t = r₂.buy_paths p t ∧
        r₁.rent_paths p t = r₂.rent_paths p t ∧
        r₁.invest_paths p t = r₂.invest_paths p t) ∧
    (∀ ω₃ : ℕ → ℝ, (∀ i, i < params.n_paths * nMonthsOf params → ω₁ i = ω₃ i) →
      ∀ p, p < params.n_paths → ∀ t, t ≤ nMonthsOf params →
        composeHomePaths params ⟨ω₁, 0⟩ p t = composeHomePaths params ⟨ω₃, 0⟩ p t) ∧
    (∀ ω₃ : ℕ → ℝ,
      (∀ i, 2 * (params.n_paths * nMonthsOf params) ≤ i →
        i < 3 * (params.n_paths * nMonthsOf params) → ω₁ i = ω₃ i) →
      ∀ p, p < params.n_paths → ∀ t, t ≤ nMonthsOf params →
        composeInvestPaths params ⟨ω₁, 0⟩ p t =
          composeInvestPaths params ⟨ω₃, 0⟩ p t) := by
  refine ⟨?_, ?_, ?_, ?_⟩
  · show 0 + params.n_paths * nMonthsOf params + params.n_paths * nMonthsOf params +
      params.n_paths * nMonthsOf params = _
    omega
  · intro r₁ r₂ hok₁ hok₂ p hp t ht
    have hnr := not_raises_of_ok hok₁
    rw [composeResult_of_ok hok₁, composeResult_of_ok hok₂]
    have h0 : ∀ i, i < params.n_paths * nMonthsOf params → ω₁ i = ω₂ i :=
      fun i hi => h i (by omega)
    have h01 : ∀ i, i < 2 * (params.n_paths * nMonthsOf params) → ω₁ i = ω₂ i :=
      fun i hi => h i (by omega)
    have hhome := composeHomePaths_agree params ω₁ ω₂ h0 p hp t ht
    have hliq := composeBuyLiquid_agree params ω₁ ω₂ h01 hnr p hp t ht
    have heq := composeHomeEquity_agree params ω₁ ω₂ h0 p hp t ht
    have hinv := composeInvestPaths_agree params ω₁ ω₂
      (fun i h2 h3 => h i h3) p hp t ht
    refine ⟨hhome, hliq, heq, ?_, rfl, hinv⟩
    show composeBuyLiquid params ⟨ω₁, 0⟩ p t + composeHomeEquity params ⟨ω₁, 0⟩ p t = _
    rw [hliq, heq]
    rfl
  · intro ω₃ h3 p hp t ht
    exact composeHomePaths_agree params ω₁ ω₃ h3 p hp t ht
  · intro ω₃ h3 p hp t ht
    exact composeInvestPaths_agree params ω₁ ω₃ h3 p hp t ht

/-- Witness for C2: the benign conventional run (1 path, 12 months)
consumes exactly 36 draws, and replaying the same stream reproduces the
home grid entry at (0, 0). -/
theorem compose_deterministic_three_draws_witness :
    (∀ i, i < 3 * (testParams.n_paths * nMonthsOf testParams) →
      zeroStream i = zeroStream i) ∧
    (composeRngFinal testParams ⟨zeroStream, 0⟩).cursor = 36 ∧
    compose_invest_vs_buy testParams ⟨zeroStream, 0⟩ =
      .ok (composeResultOf testParams ⟨zeroStream, 0⟩) ∧
    (composeResultOf testParams ⟨zeroStream, 0⟩).home_paths 0 0 =
      (composeResultOf testParams ⟨zeroStream, 0⟩).home_paths 0 0 := by
  have hagree : ∀ i, i < 3 * (testParams.n_paths * nMonthsOf testParams) →
      zeroStream i = zeroStream i := fun _ _ => rfl
  have h1 := @compose_ok_of_not_raises testParams ⟨zeroStream, 0⟩
    testParams_not_raises
  obtain ⟨hcur, hgrids, _, _⟩ :=
    compose_deterministic_three_draws testParams zeroStream zeroStream hagree
  exact ⟨hagree, hcur.trans (by decide),  h1,
    (hgrids _ _ h1 h1 0 (by decide) 0 (by decide)).1⟩

end InvestVsBuy
